import Mathlib

/-!
Shallow embedding of the background scheduler of `src/background.js`
(current revision: global rate limiter, local state prediction, persistent
per-server state store).  JS numbers that hold epoch timestamps are modelled
as `Nat`; computations that can go negative in JS (`Retry-After` date deltas,
`announceTime`) are carried out in `Int`.  Absent object fields are `none`;
JS truthiness of a number is "present and nonzero".
-/

namespace EventPeeper

/-- `ANNOUNCE_WINDOW_SEC = 3 * 60`: seconds from announce to open. -/
def ANNOUNCE_WINDOW_SEC : Nat := 3 * 60

/-- `OPEN_WINDOW_SEC = 15 * 60`: seconds an event stays open. -/
def OPEN_WINDOW_SEC : Nat := 15 * 60

/-- `COOLDOWN_GAP_SEC = 27 * 60`: seconds from close to next announce. -/
def COOLDOWN_GAP_SEC : Nat := 27 * 60

/-- `RATE_WINDOW_MS = 10_000`: rolling rate-limit window in milliseconds. -/
def RATE_WINDOW_MS : Nat := 10000

/-- `RATE_MAX_REQUESTS = 10`: request capacity inside one window. -/
def RATE_MAX_REQUESTS : Nat := 10

/-- The `event` object carried by an API record; every field may be absent. -/
structure EventInfo where
  name : Option String
  open_time : Option Nat
  close_time : Option Nat
deriving DecidableEq, Repr

/-- An API or predicted event record: a `type` tag (`"announced"`, `"open"`,
`"closed"`, or anything else the API may send) plus optional payload. -/
structure EventData where
  type : String
  event : Option EventInfo := none
  predicted_open_time : Option Nat := none
deriving DecidableEq, Repr

/-- `predictNextState(data, now)` of background.js.  The guards mirror the JS
truthiness tests: `openTime && now >= openTime` requires the field to be
present and nonzero; `close_time || open_time + OPEN_WINDOW_SEC` falls back to
the derived close time when `close_time` is absent or `0`, and is absent
(JS `NaN`, falsy) when the `event` object or `open_time` is missing.  The
`"closed"` branch returns `null` whether or not the announce time has passed,
so it is a plain `none` here. -/
def predictNextState (data : Option EventData) (now : Nat) : Option EventData :=
  match data with
  | none => none
  | some d =>
    if d.type = "announced" then
      match d.event.bind EventInfo.open_time with
      | some t =>
        if t ≠ 0 ∧ t ≤ now then
          some { type := "open"
                 event := some { name := d.event.bind EventInfo.name
                                 open_time := some t
                                 close_time := some (t + OPEN_WINDOW_SEC) } }
        else none
      | none => none
    else if d.type = "open" then
      let closeTime : Option Nat :=
        match d.event.bind EventInfo.close_time with
        | some c =>
          if c ≠ 0 then some c
          else (d.event.bind EventInfo.open_time).map (· + OPEN_WINDOW_SEC)
        | none => (d.event.bind EventInfo.open_time).map (· + OPEN_WINDOW_SEC)
      match closeTime with
      | some c =>
        if c ≠ 0 ∧ c ≤ now then
          some { type := "closed"
                 predicted_open_time := some (c + COOLDOWN_GAP_SEC + ANNOUNCE_WINDOW_SEC) }
        else none
      | none => none
    else
      none

/-- The `while` loop of `predictState`: `iterations` is incremented at the top
of each pass, the loop breaks when the step yields `null` or an unchanged
`type`, and ends once `iterations` reaches `maxIterations`.  The loop guard
`iterations < maxIterations` is carried here as the structural fuel
`fuel = maxIterations - iterations` (positive exactly when the guard holds,
decremented as `iterations` is incremented).  Returns the final
`(iterations, currentData)` pair. -/
def predictIter (now : Nat) (fuel iterations : Nat) (currentData : EventData) :
    Nat × EventData :=
  match fuel with
  | 0 => (iterations, currentData)
  | f + 1 =>
    match predictNextState (some currentData) now with
    | none => (iterations + 1, currentData)
    | some nextState =>
      if nextState.type = currentData.type then (iterations + 1, currentData)
      else predictIter now f (iterations + 1) nextState

/-- A cache snapshot `{data, error, loading, lastUpdated}`. -/
structure Snapshot where
  data : Option EventData
  error : Option String
  loading : Bool
  lastUpdated : Nat
deriving DecidableEq, Repr

/-- A persisted entry `{data: <snapshot>, savedAt}`; `savedAt = 0` models a
falsy or absent `savedAt` (the source guards it with `savedAt || Date.now()`). -/
structure SavedState where
  data : Snapshot
  savedAt : Nat
deriving DecidableEq, Repr

/-- `predictState(savedState)`, with the clock passed explicitly: bail out when
`savedState?.data?.data` is absent, run the bounded transition loop from the
saved record, and force a live query (`null`) when the iteration cap of 4 was
reached. -/
def predictState (savedState : Option SavedState) (now : Nat) : Option EventData :=
  match savedState with
  | none => none
  | some s =>
    match s.data.data with
    | none => none
    | some d =>
      let r := predictIter now 4 0 d
      if 4 ≤ r.1 then none else some r.2

/-- `needsApiQuery(predictedData, now)`, as the JS truthiness of the returned
value `announceTime && now >= announceTime`: a missing or zero
`predicted_open_time` gives a falsy `null`, an `announceTime` of exactly `0`
is falsy, and a negative `announceTime` is truthy, so the comparison runs
over `Int`. -/
def needsApiQuery (predictedData : Option EventData) (now : Nat) : Bool :=
  match predictedData with
  | none => true
  | some d =>
    if d.type = "closed" then
      match d.predicted_open_time with
      | some p =>
        if p ≠ 0 then
          decide ((p : Int) - (ANNOUNCE_WINDOW_SEC : Int) ≠ 0 ∧
                  (p : Int) - (ANNOUNCE_WINDOW_SEC : Int) ≤ (now : Int))
        else false
      | none => false
    else false

/-- `pruneOld()`: drop entries older than `Date.now() - RATE_WINDOW_MS` from
the front of `globalRequestTimes`.  In JS a cutoff below zero prunes nothing,
which truncated `Nat` subtraction reproduces exactly. -/
def pruneOld (now : Nat) (times : List Nat) : List Nat :=
  times.dropWhile (fun t => decide (t < now - RATE_WINDOW_MS))

/-- `timeUntilNextSlotMs()`: `0` when capacity remains, otherwise
`max(0, RATE_WINDOW_MS - (now - oldest))` computed over `Int` as in JS. -/
def timeUntilNextSlotMs (now : Nat) (times : List Nat) : Int :=
  let arr := pruneOld now times
  if arr.length < RATE_MAX_REQUESTS then 0
  else
    match arr.head? with
    | some oldest => max 0 ((RATE_WINDOW_MS : Int) - ((now : Int) - (oldest : Int)))
    | none => 0

/-- `canMakeAutoRequest()`: prune, then compare the count with the capacity. -/
def canMakeAutoRequest (now : Nat) (times : List Nat) : Bool :=
  decide ((pruneOld now times).length < RATE_MAX_REQUESTS)

/-- `recordRequest()`: prune, then append `Date.now()`. -/
def recordRequest (now : Nat) (times : List Nat) : List Nat :=
  pruneOld now times ++ [now]

/-- Folding `recordRequest` over a list of call instants, oldest first. -/
def recordAll (calls : List Nat) (times : List Nat) : List Nat :=
  calls.foldl (fun acc t => recordRequest t acc) times

/-- `scheduleLocalRetry(server)` on the timer slot of one server: keep a
pending timer untouched, otherwise schedule one single-shot timer at
`max(200, timeUntilNextSlotMs())`. -/
def scheduleLocalRetry (timer : Option Int) (now : Nat) (times : List Nat) :
    Option Int :=
  match timer with
  | some t => some t
  | none => some (max 200 (timeUntilNextSlotMs now times))

/-- Parse outcomes of the `Retry-After` header in the HTTP 429 branch:
header absent (or empty, hence falsy), `Number(ra)` not `NaN`, `Number(ra)`
`NaN` but `new Date(ra)` valid with the given epoch-ms `getTime()`, or
unparseable both ways. -/
inductive RetryAfterHeader where
  | absent
  | numeric (secs : Int)
  | httpDate (epochMs : Int)
  | unparseable
deriving DecidableEq, Repr

/-- The retry-delay computation of the 429 branch of `fetchFromAPI`: default
`10_000`, `max(1000, secs * 1000)` for a numeric header, and
`max(1000, date.getTime() - Date.now())` for an HTTP-date header. -/
def computeRetryDelayMs (ra : RetryAfterHeader) (nowMs : Nat) : Int :=
  match ra with
  | .absent => 10000
  | .numeric secs => max 1000 (secs * 1000)
  | .httpDate epochMs => max 1000 (epochMs - (nowMs : Int))
  | .unparseable => 10000

/-- The non-forced prediction fast path of `fetchFromAPI`: when
`savedState?.data?.data` is present, the predicted record is non-null and
`needsApiQuery` is falsy, synthesize the snapshot
`{data: predictedData, error: null, loading: false,
lastUpdated: savedState.savedAt || Date.now()}`; `none` when the path falls
through to the rate-limit gate. -/
def predictionSnapshot (saved : Option SavedState) (nowSec nowMs : Nat) :
    Option Snapshot :=
  match saved with
  | none => none
  | some s =>
    match s.data.data with
    | none => none
    | some _ =>
      match predictState (some s) nowSec with
      | none => none
      | some p =>
        if needsApiQuery (some p) nowSec then none
        else
          some { data := some p
                 error := none
                 loading := false
                 lastUpdated := if s.savedAt ≠ 0 then s.savedAt else nowMs }

/-- Outcome of the pre-network control flow of `fetchFromAPI`. -/
inductive FetchOutcome where
  | coalesced
  | predicted (snap : Snapshot)
  | denied
  | network
deriving DecidableEq, Repr

/-- The pre-network control flow of `fetchFromAPI`: return the in-flight
promise when `cache.loading && inFlight[server]`, otherwise (non-forced) try
the prediction path, otherwise gate on `canMakeAutoRequest()`; forced calls
and admitted calls proceed to the network. -/
def fetchPreNetwork (forced : Bool) (cache : Snapshot) (inFlightSet : Bool)
    (saved : Option SavedState) (nowSec nowMs : Nat) (times : List Nat) :
    FetchOutcome :=
  if cache.loading && inFlightSet then .coalesced
  else if !forced then
    match predictionSnapshot saved nowSec nowMs with
    | some snap => .predicted snap
    | none => if !canMakeAutoRequest nowMs times then .denied else .network
  else .network

/-- Observable effect of the rate-limit denial branch of `fetchFromAPI`. -/
structure DenialEffect where
  cache : Snapshot
  timer : Option Int
  returned : Snapshot
  times : List Nat
  networkCalled : Bool
  notified : Bool
  storeWrites : List (Snapshot × Nat)
deriving DecidableEq, Repr

/-- The rate-limit denial branch of `fetchFromAPI`: `notifyPopup(server)`,
`scheduleLocalRetry(server)`, and `return {...cache}` — the cached snapshot,
the limiter state and the persistent store are all left untouched, and no
network request is issued. -/
def rateLimitDenialStep (cache : Snapshot) (timer : Option Int) (nowMs : Nat)
    (times : List Nat) : DenialEffect :=
  { cache := cache
    timer := scheduleLocalRetry timer nowMs times
    returned := cache
    times := times
    networkCalled := false
    notified := true
    storeWrites := [] }

/-- Abstract outcome of the awaited `fetch` inside `fetchFromAPI`:
HTTP 429 with its `Retry-After` parse outcome, a 2xx whose JSON body parsed
(`httpOk (some body)`), a 2xx whose `res.json()` threw (`httpOk none`, which
lands in the catch block), a non-2xx status (thrown, caught locally), or a
transport failure (fetch rejected). -/
inductive NetResult where
  | status429 (ra : RetryAfterHeader)
  | httpOk (body : Option EventData)
  | httpErr (code : Nat)
  | netFail
deriving DecidableEq, Repr

/-- Observable effect of the network phase of `fetchFromAPI`:
the new cached snapshot, the retry-timer slot, the returned snapshot, and the
writes issued to the persistent store (pairs of saved snapshot and `savedAt`). -/
structure NetEffect where
  cache : Snapshot
  timer : Option Int
  returned : Snapshot
  storeWrites : List (Snapshot × Nat)
deriving DecidableEq, Repr

/-- The network phase of `fetchFromAPI`, acting on the function-local `cache`
snapshot captured before `loading` was set: the 429 branch restores
`{...cache, loading: false}` and schedules one retry unless a timer is
pending; a parsed 2xx replaces the snapshot with
`{data, error: null, loading: false, lastUpdated: Date.now()}` and persists
exactly that snapshot via `saveState`; every failure lands in the catch block,
which restores `{...cache, loading: false}` and writes nothing. -/
def networkPhase (cache : Snapshot) (timer : Option Int) (res : NetResult)
    (nowMs : Nat) : NetEffect :=
  match res with
  | .status429 ra =>
    let newCache : Snapshot := { cache with loading := false }
    { cache := newCache
      timer :=
        match timer with
        | some t => some t
        | none => some (computeRetryDelayMs ra nowMs)
      returned := newCache
      storeWrites := [] }
  | .httpOk (some body) =>
    let snap : Snapshot :=
      { data := some body, error := none, loading := false, lastUpdated := nowMs }
    { cache := snap, timer := timer, returned := snap, storeWrites := [(snap, nowMs)] }
  | .httpOk none =>
    let newCache : Snapshot := { cache with loading := false }
    { cache := newCache, timer := timer, returned := newCache, storeWrites := [] }
  | .httpErr _ =>
    let newCache : Snapshot := { cache with loading := false }
    { cache := newCache, timer := timer, returned := newCache, storeWrites := [] }
  | .netFail =>
    let newCache : Snapshot := { cache with loading := false }
    { cache := newCache, timer := timer, returned := newCache, storeWrites := [] }

/-- Result of one `fetchFromAPI` invocation in the interleaving model. -/
inductive CallResult where
  | coalesced
  | predicted
  | denied
  | network
deriving DecidableEq, Repr

/-- Position of one non-forced `fetchFromAPI` call between its suspension
points: before the in-flight check, suspended at `await loadState(server)`
with the function-local `cache` captured at entry, or finished. -/
inductive TaskPhase where
  | start
  | afterLoad (localCache : Snapshot)
  | done (r : CallResult)
deriving DecidableEq, Repr

/-- Shared background state for the interleaving model: the cached snapshot,
the in-flight marker, the global limiter timestamps, the retry-timer slot,
and a count of network requests issued. -/
structure GState where
  cache : Snapshot
  inF : Bool
  times : List Nat
  timer : Option Int
  networkCount : Nat
deriving DecidableEq, Repr

/-- One atomic segment of a non-forced `fetchFromAPI` call.  The segments are
separated by the `await loadState(server)` suspension point: the first
segment captures the local `cache` and performs the in-flight check; the
second runs the prediction path, the rate-limit gate, or starts the network
request (set `loading`, set the in-flight marker, `recordRequest()`). -/
def stepTask (saved : Option SavedState) (nowSec nowMs : Nat) :
    TaskPhase → GState → TaskPhase × GState
  | .start, g =>
    if g.cache.loading && g.inF then (.done .coalesced, g)
    else (.afterLoad g.cache, g)
  | .afterLoad localCache, g =>
    match predictionSnapshot saved nowSec nowMs with
    | some snap => (.done .predicted, { g with cache := snap })
    | none =>
      if !canMakeAutoRequest nowMs g.times then
        (.done .denied, { g with timer := scheduleLocalRetry g.timer nowMs g.times })
      else
        (.done .network,
         { g with
             cache := { localCache with loading := true, error := none }
             inF := true
             times := recordRequest nowMs g.times
             networkCount := g.networkCount + 1 })
  | .done r, g => (.done r, g)

/-- Run an interleaving of two non-forced calls A and B: `false` steps task A,
`true` steps task B. -/
def runSchedule (saved : Option SavedState) (nowSec nowMs : Nat) :
    List Bool → TaskPhase × TaskPhase × GState → TaskPhase × TaskPhase × GState
  | [], s => s
  | b :: rest, (pa, pb, g) =>
    if b then
      let s := stepTask saved nowSec nowMs pb g
      runSchedule saved nowSec nowMs rest (pa, s.1, s.2)
    else
      let s := stepTask saved nowSec nowMs pa g
      runSchedule saved nowSec nowMs rest (s.1, pb, s.2)

/-- Limiter states reachable under all interleavings of the scheduler's
operations: automatic requests admitted by `canMakeAutoRequest`, forced
fetches that call `recordRequest()` without consulting the gate, and the
pruning every limiter operation performs. -/
inductive SchedReach : List Nat → Prop where
  | init : SchedReach []
  | auto (st : List Nat) (t : Nat) (h : SchedReach st)
      (hcan : canMakeAutoRequest t st = true) : SchedReach (recordRequest t st)
  | forced (st : List Nat) (t : Nat) (h : SchedReach st) :
      SchedReach (recordRequest t st)
  | prune (st : List Nat) (t : Nat) (h : SchedReach st) :
      SchedReach (pruneOld t st)

/-- Limiter states reachable when every recorded request was first admitted by
`canMakeAutoRequest` (no forced fetches). -/
inductive GuardedReach : List Nat → Prop where
  | init : GuardedReach []
  | auto (st : List Nat) (t : Nat) (h : GuardedReach st)
      (hcan : canMakeAutoRequest t st = true) : GuardedReach (recordRequest t st)
  | prune (st : List Nat) (t : Nat) (h : GuardedReach st) :
      GuardedReach (pruneOld t st)

/-- Cache snapshots reachable in the current background implementation: the
zeroed initial snapshot, snapshots synthesized by the prediction path (also by
the `get`/`get-all` message handlers), the `loading` transition
`{...cache, loading: true, error: null}` that precedes a network request, and
the snapshot installed by the network phase (2xx, 429, or catch block). -/
inductive CacheReach : Snapshot → Prop where
  | init :
      CacheReach { data := none, error := none, loading := false, lastUpdated := 0 }
  | predictedPath (saved : Option SavedState) (nowSec nowMs : Nat) (snap : Snapshot)
      (hp : predictionSnapshot saved nowSec nowMs = some snap) : CacheReach snap
  | loadingMark (c : Snapshot) (h : CacheReach c) :
      CacheReach { c with loading := true, error := none }
  | netStep (c : Snapshot) (timer : Option Int) (res : NetResult) (nowMs : Nat)
      (h : CacheReach c) : CacheReach (networkPhase c timer res nowMs).cache

/-! ## Helper lemmas -/

/-- Pruning removes nothing when no timestamp lies strictly before the cutoff. -/
lemma pruneOld_eq_self {now : Nat} {l : List Nat}
    (h : ∀ x ∈ l, now - RATE_WINDOW_MS ≤ x) : pruneOld now l = l := by
  cases l with
  | nil => rfl
  | cons a t =>
    have ha := h a (List.mem_cons_self a t)
    simp [pruneOld, List.dropWhile_cons, Nat.not_lt.2 ha]

/-- `recordRequest` is a plain append when nothing gets pruned. -/
lemma recordRequest_eq_append {t : Nat} {st : List Nat}
    (h : ∀ x ∈ st, t - RATE_WINDOW_MS ≤ x) : recordRequest t st = st ++ [t] := by
  rw [recordRequest, pruneOld_eq_self h]

/-- Recording a burst of requests that stay within one rate window on top of
timestamps no older than the window start never prunes, so it is a plain
append. -/
lemma recordAll_eq_append (w : Nat) :
    ∀ (calls st : List Nat), (∀ x ∈ st, w ≤ x) →
      (∀ t ∈ calls, w ≤ t ∧ t ≤ w + RATE_WINDOW_MS) →
      recordAll calls st = st ++ calls := by
  intro calls
  induction calls with
  | nil => intro st _ _; simp [recordAll]
  | cons c rest ih =>
    intro st hst hcalls
    have hc := hcalls c (List.mem_cons_self c rest)
    have hrec : recordRequest c st = st ++ [c] := by
      apply recordRequest_eq_append
      intro x hx
      have hwx := hst x hx
      omega
    have hfold : recordAll (c :: rest) st = recordAll rest (recordRequest c st) := by
      simp [recordAll]
    rw [hfold, hrec, ih (st ++ [c]) ?_ ?_]
    · simp
    · intro x hx
      rcases List.mem_append.1 hx with h1 | h1
      · exact hst x h1
      · simp only [List.mem_singleton] at h1
        omega
    · intro t ht
      exact hcalls t (List.mem_cons_of_mem c ht)

/-- A snapshot synthesized by the prediction path always comes out with
`loading = false` and `error = null`. -/
lemma predictionSnapshot_fields {saved : Option SavedState} {nowSec nowMs : Nat}
    {snap : Snapshot} (h : predictionSnapshot saved nowSec nowMs = some snap) :
    snap.loading = false ∧ snap.error = none := by
  unfold predictionSnapshot at h
  split at h
  · exact absurd h (by simp)
  · split at h
    · exact absurd h (by simp)
    · split at h
      · exact absurd h (by simp)
      · split at h
        · exact absurd h (by simp)
        · rw [Option.some.injEq] at h
          rw [← h]
          exact ⟨rfl, rfl⟩

/-! ## C1: Announced to Open at `now = openTime` -/

/-- C1 counterexample: at `T = 0` (a legitimate epoch-second value) the JS
truthiness guard `openTime && now >= openTime` is falsy, so the saved
announced record is returned unchanged instead of the claimed open record. -/
theorem c1_announced_zero_counterexample :
    predictState
        (some ⟨⟨some ⟨"announced", some ⟨some "E", some 0, none⟩, none⟩,
                none, false, 0⟩, 7⟩) 0
      = some ⟨"announced", some ⟨some "E", some 0, none⟩, none⟩ ∧
    predictState
        (some ⟨⟨some ⟨"announced", some ⟨some "E", some 0, none⟩, none⟩,
                none, false, 0⟩, 7⟩) 0
      ≠ some ⟨"open", some ⟨some "E", some 0, some OPEN_WINDOW_SEC⟩, none⟩ := by
  decide

/-- C1 (amended to nonzero open times): for every saved snapshot holding an
announced record with `open_time = T ≥ 1`, at `now = T` the prediction loop
performs exactly the announced-to-open transition, stops on the unchanged-type
check before the iteration cap, and returns the open record with
`close_time = T + OPEN_WINDOW_SEC`. -/
theorem c1_announced_to_open (err : Option String) (ld : Bool) (lu sa : Nat)
    (name : Option String) (ct pt : Option Nat) (T : Nat) (hT : 1 ≤ T) :
    predictState
        (some ⟨⟨some ⟨"announced", some ⟨name, some T, ct⟩, pt⟩, err, ld, lu⟩, sa⟩) T
      = some ⟨"open", some ⟨name, some T, some (T + OPEN_WINDOW_SEC)⟩, none⟩ := by
  have hT0 : T ≠ 0 := by omega
  have hcl : ¬ (T + OPEN_WINDOW_SEC ≤ T) := by
    simp [OPEN_WINDOW_SEC]
  have hne : T + OPEN_WINDOW_SEC ≠ 0 := by
    simp [OPEN_WINDOW_SEC]
  simp [predictState, predictIter, predictNextState, hT0, hcl, hne]

/-- C1 witness at `T = 3`. -/
theorem c1_announced_to_open_witness :
    1 ≤ 3 ∧
    predictState
        (some ⟨⟨some ⟨"announced", some ⟨some "E", some 3, none⟩, none⟩,
                none, false, 0⟩, 7⟩) 3
      = some ⟨"open", some ⟨some "E", some 3, some (3 + OPEN_WINDOW_SEC)⟩, none⟩ :=
  ⟨by decide, c1_announced_to_open none false 0 7 (some "E") none none 3 (by decide)⟩

/-! ## C2: Open to Closed at `now = closeTime` -/

/-- C2: for every saved snapshot holding an open record with `open_time = T`
and `close_time = T + OPEN_WINDOW_SEC`, at `now = close_time` the prediction
loop performs exactly the open-to-closed transition, stops before the
iteration cap, and returns the closed record with
`predicted_open_time = close_time + COOLDOWN_GAP_SEC + ANNOUNCE_WINDOW_SEC`. -/
theorem c2_open_to_closed (err : Option String) (ld : Bool) (lu sa : Nat)
    (name : Option String) (pt : Option Nat) (T : Nat) :
    predictState
        (some ⟨⟨some ⟨"open", some ⟨name, some T, some (T + OPEN_WINDOW_SEC)⟩, pt⟩,
                err, ld, lu⟩, sa⟩) (T + OPEN_WINDOW_SEC)
      = some ⟨"closed", none,
              some (T + OPEN_WINDOW_SEC + COOLDOWN_GAP_SEC + ANNOUNCE_WINDOW_SEC)⟩ := by
  have hne : T + OPEN_WINDOW_SEC ≠ 0 := by
    simp [OPEN_WINDOW_SEC]
  simp [predictState, predictIter, predictNextState, hne]

/-! ## C3: `needsApiQuery` announcement-window boundary -/

/-- C3 counterexample: at `P = 180` the claim demands `needsApiQuery = true`
at `now = P - 180 = 0`, but `announceTime` is then exactly `0`, which is JS
falsy, so the function returns a falsy value. -/
theorem c3_boundary_counterexample :
    ¬ (needsApiQuery (some ⟨"closed", none, some 180⟩) (180 - 180) = true) := by
  decide

/-- C3 (amended to `P ≥ 181`, i.e. a nonzero announce time): for every
predicted closed record with `predicted_open_time = P ≥ 181`, the live-query
trigger fires exactly on entering the announcement window: `needsApiQuery` is
true at `now = P - 180` and false at `now = P - 181`. -/
theorem c3_needsQuery_boundary (P : Nat) (hP : 181 ≤ P) :
    needsApiQuery (some ⟨"closed", none, some P⟩) (P - ANNOUNCE_WINDOW_SEC) = true ∧
    needsApiQuery (some ⟨"closed", none, some P⟩) (P - (ANNOUNCE_WINDOW_SEC + 1)) = false := by
  have h0 : P ≠ 0 := by omega
  constructor <;>
    simp only [needsApiQuery, ANNOUNCE_WINDOW_SEC, h0, ne_eq, not_false_eq_true,
      if_true, reduceIte, decide_eq_true_eq, decide_eq_false_iff_not] <;>
    push_cast <;>
    omega

/-- C3 witness at `P = 1000`: true at `now = 820`, false at `now = 819`. -/
theorem c3_needsQuery_boundary_witness :
    181 ≤ 1000 ∧
    (needsApiQuery (some ⟨"closed", none, some 1000⟩) (1000 - ANNOUNCE_WINDOW_SEC) = true ∧
     needsApiQuery (some ⟨"closed", none, some 1000⟩) (1000 - (ANNOUNCE_WINDOW_SEC + 1)) = false) :=
  ⟨by decide, c3_needsQuery_boundary 1000 (by decide)⟩

/-! ## C4: RateLimiter saturation -/

/-- C4: after any chronological sequence of at least `RATE_MAX_REQUESTS`
calls to `recordRequest` whose recorded timestamps all lie within one
`RATE_WINDOW_MS` window starting at the oldest timestamp `w`, at every
instant `now` at or after the calls and before the oldest timestamp ages out
of the rolling window (`now ≤ w + RATE_WINDOW_MS`), `canMakeAutoRequest` —
which prunes timestamps older than `now - RATE_WINDOW_MS` and compares the
count with `RATE_MAX_REQUESTS` — returns `false`. -/
theorem c4_rateLimiter_saturation (calls : List Nat) (w now : Nat)
    (hhead : calls.head? = some w)
    (hsorted : calls.Pairwise (· ≤ ·))
    (hlen : RATE_MAX_REQUESTS ≤ calls.length)
    (hwin : ∀ t ∈ calls, t ≤ w + RATE_WINDOW_MS)
    (hafter : ∀ t ∈ calls, t ≤ now)
    (hfresh : now ≤ w + RATE_WINDOW_MS) :
    canMakeAutoRequest now (recordAll calls []) = false := by
  have hw_le : ∀ t ∈ calls, w ≤ t := by
    cases calls with
    | nil => simp at hhead
    | cons a rest =>
      have ha : a = w := by simpa using hhead
      subst ha
      intro t ht
      rcases List.mem_cons.1 ht with rfl | ht2
      · exact le_refl t
      · exact (List.pairwise_cons.1 hsorted).1 t ht2
  have hrec : recordAll calls [] = calls := by
    have := recordAll_eq_append w calls [] (by simp)
      (fun t ht => ⟨hw_le t ht, hwin t ht⟩)
    simpa using this
  have hprune : pruneOld now calls = calls := by
    apply pruneOld_eq_self
    intro x hx
    have h1 := hw_le x hx
    omega
  rw [hrec, canMakeAutoRequest, hprune]
  simp only [decide_eq_false_iff_not, not_lt]
  exact hlen

/-- C4 witness: ten calls recorded at `t = 1000`, queried at `now = 1500`. -/
theorem c4_rateLimiter_saturation_witness :
    ((List.replicate 10 1000).head? = some 1000 ∧
     (List.replicate 10 1000).Pairwise (· ≤ ·) ∧
     RATE_MAX_REQUESTS ≤ (List.replicate 10 1000).length ∧
     (∀ t ∈ List.replicate 10 1000, t ≤ 1000 + RATE_WINDOW_MS) ∧
     (∀ t ∈ List.replicate 10 1000, t ≤ 1500) ∧
     1500 ≤ 1000 + RATE_WINDOW_MS) ∧
    canMakeAutoRequest 1500 (recordAll (List.replicate 10 1000) []) = false :=
  ⟨⟨by decide, by decide, by decide, by decide, by decide, by decide⟩,
   c4_rateLimiter_saturation (List.replicate 10 1000) 1000 1500
     (by decide) (by decide) (by decide) (by decide) (by decide) (by decide)⟩

/-! ## C5: RateWindow length invariant -/

/-- Pruning never lengthens the timestamp list. -/
lemma pruneOld_length_le (now : Nat) (l : List Nat) :
    (pruneOld now l).length ≤ l.length := by
  rw [pruneOld]
  induction l with
  | nil => simp
  | cons a t ih =>
    rw [List.dropWhile_cons]
    split
    · exact le_trans ih (by simp)
    · exact le_refl _

/-- Eleven forced `recordRequest` calls at time `0` build the all-zeros list. -/
lemma schedReach_replicate_zero (n : Nat) : SchedReach (List.replicate n 0) := by
  induction n with
  | zero => exact SchedReach.init
  | succ k ih =>
    have hrec : recordRequest 0 (List.replicate k 0) = List.replicate (k + 1) 0 := by
      rw [recordRequest_eq_append (by intro x hx; omega)]
      rw [List.replicate_succ']
    exact hrec ▸ SchedReach.forced _ 0 ih

/-- C5 counterexample: the claimed invariant is quantified over interleavings
that include forced fetches, but forced fetches record a slot without
consulting `canMakeAutoRequest`, so eleven forced calls inside one window
leave eleven timestamps after pruning — more than `RATE_MAX_REQUESTS`. -/
theorem c5_length_counterexample :
    ¬ (∀ st, SchedReach st → ∀ now, (pruneOld now st).length ≤ RATE_MAX_REQUESTS) := by
  intro h
  have h11 := h (List.replicate 11 0) (schedReach_replicate_zero 11) 0
  exact absurd h11 (by decide)

/-- C5 (amended to guarded interleavings): in every limiter state reachable
when each recorded request is first admitted by `canMakeAutoRequest` (no
forced fetches), the timestamp list — after the pruning every limiter
operation performs — has length at most `RATE_MAX_REQUESTS`. -/
theorem c5_guarded_length_invariant (st : List Nat) (h : GuardedReach st) (now : Nat) :
    (pruneOld now st).length ≤ RATE_MAX_REQUESTS := by
  have hlen : st.length ≤ RATE_MAX_REQUESTS := by
    induction h with
    | init => simp [RATE_MAX_REQUESTS]
    | auto st0 t h0 hcan ih =>
      have hlt : (pruneOld t st0).length < RATE_MAX_REQUESTS := by
        simpa [canMakeAutoRequest] using hcan
      rw [recordRequest]
      simp only [List.length_append, List.length_singleton]
      omega
    | prune st0 t h0 ih =>
      exact le_trans (pruneOld_length_le t st0) ih
  exact le_trans (pruneOld_length_le now st) hlen

/-- C5 witness: one guarded record at `t = 5`, pruned at `now = 6`. -/
theorem c5_guarded_length_invariant_witness :
    (pruneOld 6 (recordRequest 5 [])).length ≤ RATE_MAX_REQUESTS :=
  c5_guarded_length_invariant (recordRequest 5 [])
    (GuardedReach.auto [] 5 GuardedReach.init (by decide)) 6

/-! ## C6: HTTP 429 handling -/

/-- C6: on HTTP 429 the scheduler preserves the snapshot's `data` (and its
`error`) while clearing `loading`, returns that snapshot rather than failing,
writes nothing to the persistent store, schedules exactly one retry timer at
the computed delay when none is pending and keeps a pending timer untouched;
the delay is `max(1000, secs * 1000)` for a numeric `Retry-After`,
`max(1000, date - now)` for an HTTP-date one, `10000` when the header is
absent or unparseable, and in particular at least `5000` for `Retry-After: 5`. -/
theorem c6_http429_handling (cache : Snapshot) (timer : Option Int)
    (ra : RetryAfterHeader) (nowMs : Nat) :
    (networkPhase cache timer (NetResult.status429 ra) nowMs).cache.data = cache.data ∧
    (networkPhase cache timer (NetResult.status429 ra) nowMs).cache.loading = false ∧
    (networkPhase cache timer (NetResult.status429 ra) nowMs).cache.error = cache.error ∧
    (networkPhase cache timer (NetResult.status429 ra) nowMs).returned
      = (networkPhase cache timer (NetResult.status429 ra) nowMs).cache ∧
    (networkPhase cache timer (NetResult.status429 ra) nowMs).storeWrites = [] ∧
    (timer = none →
      (networkPhase cache timer (NetResult.status429 ra) nowMs).timer
        = some (computeRetryDelayMs ra nowMs)) ∧
    (∀ t, timer = some t →
      (networkPhase cache timer (NetResult.status429 ra) nowMs).timer = some t) ∧
    (∀ secs, computeRetryDelayMs (RetryAfterHeader.numeric secs) nowMs
      = max 1000 (secs * 1000)) ∧
    (∀ epochMs, computeRetryDelayMs (RetryAfterHeader.httpDate epochMs) nowMs
      = max 1000 (epochMs - (nowMs : Int))) ∧
    computeRetryDelayMs RetryAfterHeader.absent nowMs = 10000 ∧
    computeRetryDelayMs RetryAfterHeader.unparseable nowMs = 10000 ∧
    (5000 : Int) ≤ computeRetryDelayMs (RetryAfterHeader.numeric 5) nowMs := by
  refine ⟨rfl, rfl, rfl, rfl, rfl, ?_, ?_, fun _ => rfl, fun _ => rfl, rfl, rfl, ?_⟩
  · intro h
    subst h
    rfl
  · intro t h
    subst h
    rfl
  · simp [computeRetryDelayMs]

/-- C6 witness: `Retry-After: 5` with no pending timer schedules a 5000 ms
retry and preserves the prior `data`. -/
theorem c6_http429_handling_witness :
    (networkPhase ⟨some ⟨"closed", none, some 5⟩, none, true, 42⟩ none
        (NetResult.status429 (RetryAfterHeader.numeric 5)) 7).timer = some 5000 ∧
    (networkPhase ⟨some ⟨"closed", none, some 5⟩, none, true, 42⟩ none
        (NetResult.status429 (RetryAfterHeader.numeric 5)) 7).cache.data
      = some ⟨"closed", none, some 5⟩ := by
  have h := c6_http429_handling ⟨some ⟨"closed", none, some 5⟩, none, true, 42⟩ none
    (RetryAfterHeader.numeric 5) 7
  refine ⟨?_, h.1⟩
  rw [h.2.2.2.2.2.1 rfl]
  decide

/-! ## C7: Rate-limit denial path -/

/-- C7 counterexample: the denial branch never clears `loading` — it only
returns `{...cache}` — and it is reachable with `loading = true` (the
in-flight check passes whenever the marker is unset, e.g. after a stale
`finally` cleared a newer fetch's marker), so "loading is cleared" fails:
here the branch is taken on a `loading = true` snapshot and the returned
snapshot still has `loading = true`. -/
theorem c7_loading_not_cleared_counterexample :
    fetchPreNetwork false ⟨some ⟨"open", none, none⟩, none, true, 3⟩ false none 0 0
        (List.replicate 10 0) = FetchOutcome.denied ∧
    (rateLimitDenialStep ⟨some ⟨"open", none, none⟩, none, true, 3⟩ none 0
        (List.replicate 10 0)).returned.loading = true := by
  decide

/-- C7 (amended: `loading` is left unchanged, not cleared): every non-forced
call that passes the in-flight check (`cache.loading && inFlight` false) and
falls past the prediction path into a rate-limit denial takes the `denied`
branch, which leaves the cached snapshot entirely untouched — its `data`
preserved and its `loading` exactly as it was — returns it, notifies
listeners, issues no network request, writes nothing to the persistent
store, schedules one retry timer at `max(200, timeUntilNextSlotMs())` when
none is pending, and keeps a pending timer untouched. -/
theorem c7_rateLimit_denial (cache : Snapshot) (inFlightSet : Bool)
    (saved : Option SavedState) (timer : Option Int) (nowSec nowMs : Nat)
    (times : List Nat)
    (hguard : (cache.loading && inFlightSet) = false)
    (hpred : predictionSnapshot saved nowSec nowMs = none)
    (hrate : canMakeAutoRequest nowMs times = false) :
    fetchPreNetwork false cache inFlightSet saved nowSec nowMs times
      = FetchOutcome.denied ∧
    (rateLimitDenialStep cache timer nowMs times).cache = cache ∧
    (rateLimitDenialStep cache timer nowMs times).returned = cache ∧
    (rateLimitDenialStep cache timer nowMs times).returned.loading = cache.loading ∧
    (rateLimitDenialStep cache timer nowMs times).times = times ∧
    (rateLimitDenialStep cache timer nowMs times).networkCalled = false ∧
    (rateLimitDenialStep cache timer nowMs times).notified = true ∧
    (rateLimitDenialStep cache timer nowMs times).storeWrites = [] ∧
    (timer = none →
      (rateLimitDenialStep cache timer nowMs times).timer
        = some (max 200 (timeUntilNextSlotMs nowMs times))) ∧
    (∀ t, timer = some t →
      (rateLimitDenialStep cache timer nowMs times).timer = some t) := by
  refine ⟨?_, rfl, rfl, rfl, rfl, rfl, rfl, rfl, ?_, ?_⟩
  · simp [fetchPreNetwork, hguard, hpred, hrate]
  · intro h
    subst h
    rfl
  · intro t h
    subst h
    rfl

/-- C7 witness: a saturated limiter (ten slots used at `t = 0`) denies a
non-forced call at `nowMs = 0`, leaves the snapshot as it was, and schedules
a 10000 ms retry. -/
theorem c7_rateLimit_denial_witness :
    ((⟨some ⟨"open", none, none⟩, none, false, 3⟩ : Snapshot).loading && false) = false ∧
    predictionSnapshot none 0 0 = none ∧
    canMakeAutoRequest 0 (List.replicate 10 0) = false ∧
    fetchPreNetwork false ⟨some ⟨"open", none, none⟩, none, false, 3⟩ false none 0 0
        (List.replicate 10 0) = FetchOutcome.denied ∧
    (rateLimitDenialStep ⟨some ⟨"open", none, none⟩, none, false, 3⟩ none 0
        (List.replicate 10 0)).returned.loading
      = (⟨some ⟨"open", none, none⟩, none, false, 3⟩ : Snapshot).loading ∧
    (rateLimitDenialStep ⟨some ⟨"open", none, none⟩, none, false, 3⟩ none 0
        (List.replicate 10 0)).timer
      = some (max 200 (timeUntilNextSlotMs 0 (List.replicate 10 0))) := by
  have h := c7_rateLimit_denial ⟨some ⟨"open", none, none⟩, none, false, 3⟩ false
    none none 0 0 (List.replicate 10 0) rfl rfl (by decide)
  exact ⟨rfl, rfl, by decide, h.1, h.2.2.2.1, h.2.2.2.2.2.2.2.2.1 rfl⟩

/-! ## C8: Request coalescing -/

/-- C8 counterexample: over arbitrary interleavings of two concurrent
non-forced calls starting with no fetch in flight, "at most one network call"
fails — both calls can pass the in-flight check before either sets the
marker, because `await loadState(server)` suspends between the check and the
network start.  The schedule A, B, A, B from a fresh state issues two network
requests. -/
theorem c8_coalescing_counterexample :
    ¬ (∀ (sched : List Bool) (saved : Option SavedState) (nowSec nowMs : Nat)
        (g : GState), g.networkCount = 0 → g.inF = false →
        g.cache.loading = false →
        (runSchedule saved nowSec nowMs sched
          (TaskPhase.start, TaskPhase.start, g)).2.2.networkCount ≤ 1) := by
  intro h
  have h2 := h [false, true, false, true] none 0 0
    ⟨⟨none, none, false, 0⟩, false, [], none, 0⟩ rfl rfl rfl
  exact absurd h2 (by decide)

/-- C8 (amended): the in-flight guard itself holds — a call that starts while
the cached snapshot has `loading = true` and the in-flight marker is set
immediately returns the in-flight result and changes nothing — and two calls
sequenced so that the second begins only after the first finished its
pre-network phase (schedule A, A, B, B) issue at most one network request;
the "at most one concurrent network call" consequence holds only for such
sequencings, not for interleavings that suspend both calls at the
persisted-state read. -/
theorem c8_coalescing_guard (saved : Option SavedState) (nowSec nowMs : Nat)
    (g : GState) (hload : g.cache.loading = true) (hin : g.inF = true) :
    stepTask saved nowSec nowMs TaskPhase.start g
      = (TaskPhase.done CallResult.coalesced, g) ∧
    ∀ (cache : Snapshot) (inF : Bool) (times : List Nat) (timer : Option Int),
      (runSchedule saved nowSec nowMs [false, false, true, true]
        (TaskPhase.start, TaskPhase.start,
          ⟨cache, inF, times, timer, 0⟩)).2.2.networkCount ≤ 1 := by
  constructor
  · simp [stepTask, hload, hin]
  · intro cache inF times timer
    by_cases h1 : (cache.loading && inF) = true
    · simp [runSchedule, stepTask, h1]
    · rcases hP : predictionSnapshot saved nowSec nowMs with _ | snap
      · by_cases hC : canMakeAutoRequest nowMs times = true
        · simp [runSchedule, stepTask, h1, hP, hC]
        · simp [runSchedule, stepTask, h1, hP, hC,
            Bool.not_eq_true _ ▸ (Bool.of_not_eq_true hC)]
      · have hsl : snap.loading = false := (predictionSnapshot_fields hP).1
        simp [runSchedule, stepTask, h1, hP, hsl]

/-- C8 witness: with a fetch in flight, a fresh call coalesces; sequential
calls from a fresh state issue at most one network request. -/
theorem c8_coalescing_guard_witness :
    ((⟨⟨none, none, true, 0⟩, true, [], none, 1⟩ : GState).cache.loading = true ∧
     (⟨⟨none, none, true, 0⟩, true, [], none, 1⟩ : GState).inF = true) ∧
    stepTask none 0 0 TaskPhase.start ⟨⟨none, none, true, 0⟩, true, [], none, 1⟩
      = (TaskPhase.done CallResult.coalesced,
         ⟨⟨none, none, true, 0⟩, true, [], none, 1⟩) ∧
    (runSchedule none 0 0 [false, false, true, true]
      (TaskPhase.start, TaskPhase.start,
        ⟨⟨none, none, false, 0⟩, false, [], none, 0⟩)).2.2.networkCount ≤ 1 := by
  have h := c8_coalescing_guard none 0 0 ⟨⟨none, none, true, 0⟩, true, [], none, 1⟩
    rfl rfl
  exact ⟨⟨rfl, rfl⟩, h.1, h.2 ⟨none, none, false, 0⟩ false [] none⟩

/-! ## C9: PersistentStateStore write discipline -/

/-- C9: the persistent store is written exactly on the parsed-2xx success
path — which first replaces the cached snapshot in full with
`{data, error: null, loading: false, lastUpdated: now}` and then persists
exactly that snapshot as `{data, savedAt: now}` — while the 429 branch, the
parse-failure branch, the non-2xx branch, the transport-failure branch, and
the rate-limit denial path write nothing. -/
theorem c9_write_discipline :
    (∀ (cache : Snapshot) (timer : Option Int) (body : EventData) (nowMs : Nat),
      networkPhase cache timer (NetResult.httpOk (some body)) nowMs
        = { cache := { data := some body, error := none, loading := false,
                       lastUpdated := nowMs }
            timer := timer
            returned := { data := some body, error := none, loading := false,
                          lastUpdated := nowMs }
            storeWrites := [({ data := some body, error := none, loading := false,
                               lastUpdated := nowMs }, nowMs)] }) ∧
    (∀ (cache : Snapshot) (timer : Option Int) (res : NetResult) (nowMs : Nat),
      (∀ body : EventData, res ≠ NetResult.httpOk (some body)) →
      (networkPhase cache timer res nowMs).storeWrites = []) ∧
    (∀ (cache : Snapshot) (timer : Option Int) (nowMs : Nat) (times : List Nat),
      (rateLimitDenialStep cache timer nowMs times).storeWrites = []) := by
  refine ⟨fun _ _ _ _ => rfl, ?_, fun _ _ _ _ => rfl⟩
  intro cache timer res nowMs hres
  cases res with
  | status429 ra => rfl
  | httpOk body =>
    cases body with
    | none => rfl
    | some b => exact absurd rfl (hres b)
  | httpErr code => rfl
  | netFail => rfl

/-- C9 witness: a transport failure writes nothing to the persistent store. -/
theorem c9_write_discipline_witness :
    (networkPhase ⟨none, none, true, 0⟩ none NetResult.netFail 3).storeWrites = [] :=
  c9_write_discipline.2.1 ⟨none, none, true, 0⟩ none NetResult.netFail 3
    (fun _ h => NetResult.noConfusion h)

/-! ## C10: `error` is always null -/

/-- C10: in every reachable cache snapshot of the current background
implementation `error = null`: the initial snapshot, the prediction path and
the 2xx success path set it to `null` explicitly, the `loading` transition
clears it, and the 429 and catch branches copy the previous snapshot's
`error` unchanged — so no failure is ever surfaced through the snapshot's
`error` field. -/
theorem c10_error_always_null (c : Snapshot) (h : CacheReach c) : c.error = none := by
  induction h with
  | init => rfl
  | predictedPath saved nowSec nowMs snap hp => exact (predictionSnapshot_fields hp).2
  | loadingMark c0 h0 ih => rfl
  | netStep c0 timer res nowMs h0 ih =>
    cases res with
    | status429 ra => simpa [networkPhase] using ih
    | httpOk body =>
      cases body with
      | none => simpa [networkPhase] using ih
      | some b => rfl
    | httpErr code => simpa [networkPhase] using ih
    | netFail => simpa [networkPhase] using ih

/-- C10 witness: the snapshot after a 429 on the initial state has a null
`error`. -/
theorem c10_error_always_null_witness :
    (networkPhase ⟨none, none, false, 0⟩ none
        (NetResult.status429 RetryAfterHeader.absent) 9).cache.error = none :=
  c10_error_always_null _
    (CacheReach.netStep _ none (NetResult.status429 RetryAfterHeader.absent) 9
      CacheReach.init)

end EventPeeper
